import Mathlib

/-!
Verification development for the ravendb-mcp server.

This file gives a shallow embedding of the server's TypeScript source:

* `src/common/errors.ts` — the error records, formatting, classification
  and conversion pipeline (`formatRavenDBMcpError`, `convertToMcpError`,
  `createRavenDBMcpError`, `handleRavenDBError`);
* `src/operations/ravendb/connection.ts` — the `RavenDBConnection` state
  (document store handle, current database, config) and its operations;
* `src/operations/ravendb/queries.ts`, `documents.ts`, `indexes.ts` —
  the tool handlers, with their session open/dispose discipline recorded
  as an explicit event trace;
* `src/server.ts` — the dispatcher (`callTool`): zod-schema argument
  checks, the per-tool connection check, and the catch-all that turns a
  thrown value into the error response text.

JavaScript exceptions are modelled by the `Thrown` type, which keeps the
distinctions the source branches on: `McpError` instances, plain
`RavenDBMcpError` object literals (not `Error` instances), generic
`Error` instances, and thrown non-`Error` values.  Calls into the
external RavenDB client library are modelled by an `Oracle` record of
outcome functions, and the externally visible resource actions (store
creation/initialization/disposal, session open/dispose) are recorded in
a `List Event` trace returned alongside each result.  JavaScript string
truthiness (`""` falsy) is modelled explicitly where the source relies
on it.
-/

namespace RavenMcp

/-- Whether the first character list is a prefix of the second. -/
def charsPrefix : List Char → List Char → Bool
  | [], _ => true
  | _ :: _, [] => false
  | a :: as, b :: bs => (a = b) && charsPrefix as bs

/-- Whether the needle occurs somewhere in the haystack. -/
def charsContains (hay needle : List Char) : Bool :=
  match hay with
  | [] => needle.isEmpty
  | c :: rest => charsPrefix needle (c :: rest) || charsContains rest needle

/-- Substring test: `containsSubstr s sub` holds when `sub` occurs in `s`.
Models JavaScript's `String.prototype.includes`. -/
def containsSubstr (s sub : String) : Bool :=
  charsContains s.data sub.data

/-- Single-quote character as a string, built from its code point so the
development avoids a bare quote character; used by document messages. -/
def sq : String := String.singleton (Char.ofNat 39)

/-- Boolean view of an `Except` being a success. -/
def exceptIsOk : Except ε α → Bool
  | .ok _ => true
  | .error _ => false

/-- MCP protocol error codes used by the source (from the MCP SDK). -/
inductive McpErrorCode
  | invalidParams
  | invalidRequest
  | internalError
  | methodNotFound
  deriving DecidableEq

/-- The `RavenDBMcpError` record of `src/common/errors.ts`: a plain object
with a name, a message, an optional code, an optional status code and
optional details.  Details are modelled as an association list of string
fields (the source treats them as a JSON object). -/
structure RavenDBMcpError where
  name : String
  message : String
  code : Option String
  statusCode : Option Nat
  details : Option (List (String × String))
  deriving DecidableEq

/-- A thrown JavaScript value, keeping the distinctions the source
branches on with `instanceof` and `typeof` checks. -/
inductive Thrown
  | mcpError (code : McpErrorCode) (message : String)
  | ravenError (e : RavenDBMcpError)
  | jsError (message : String)
  | nonError (value : String)
  deriving DecidableEq

/-- Whether a thrown value is an `Error` instance (`err instanceof Error
|| err instanceof McpError` in the source).  `McpError` extends `Error`;
a `RavenDBMcpError` is a plain object literal, not an `Error` instance. -/
def isErrorInstance : Thrown → Bool
  | .mcpError _ _ => true
  | .jsError _ => true
  | .ravenError _ => false
  | .nonError _ => false

/-- The message extracted by `error instanceof Error ? error.message :
String(error)`: a plain object stringifies to `[object Object]`. -/
def thrownMessage : Thrown → String
  | .mcpError _ m => m
  | .jsError m => m
  | .ravenError _ => "[object Object]"
  | .nonError v => v

/-- The `error.code` property read by `handleRavenDBError` (absent on
`Error` instances and non-objects). -/
def thrownCode : Thrown → Option String
  | .ravenError e => e.code
  | _ => none

/-- The `error.statusCode` property read by `handleRavenDBError`. -/
def thrownStatus : Thrown → Option Nat
  | .ravenError e => e.statusCode
  | _ => none

/-- The `error.details` property read by `handleRavenDBError`. -/
def thrownDetails : Thrown → Option (List (String × String))
  | .ravenError e => e.details
  | _ => none

/-- The detail fields deleted by `formatRavenDBMcpError` before the
details are included in a message (errors.ts lines 54-59). -/
def redactedKeys : List String :=
  ["stackTrace", "authentication", "password", "apiKey", "cert", "certificate"]

/-- JSON serialization of the (string-valued) safe details object, as
`JSON.stringify(safeDetails)` produces it. -/
def stringifyDetails (fields : List (String × String)) : String :=
  "\x7b" ++
    String.intercalate ","
      (fields.map fun kv => "\"" ++ kv.1 ++ "\":\"" ++ kv.2 ++ "\"") ++
  "\x7d"

/-- The `createRavenDBMcpError` constructor of errors.ts. -/
def createRavenDBMcpError (message : String) (code : Option String)
    (statusCode : Option Nat) (details : Option (List (String × String))) :
    RavenDBMcpError :=
  { name := "RavenDBError", message := message, code := code,
    statusCode := statusCode, details := details }

/-- The `formatRavenDBMcpError` function of errors.ts: builds the outward
message, appending code and status when truthy, and the details object
with the sensitive fields deleted when any field survives redaction. -/
def formatRavenDBMcpError (e : RavenDBMcpError) : String :=
  let m1 := "RavenDB Error: " ++ e.message
  let m2 := match e.code with
    | some c => if c = "" then m1 else m1 ++ "\nCode: " ++ c
    | none => m1
  let m3 := match e.statusCode with
    | some sc => if sc = 0 then m2 else m2 ++ "\nStatus: " ++ toString sc
    | none => m2
  match e.details with
  | some fields =>
      let safeDetails := fields.filter fun kv => !(redactedKeys.contains kv.1)
      if safeDetails.isEmpty then m3
      else m3 ++ "\nDetails: " ++ stringifyDetails safeDetails
  | none => m3

/-- The `convertToMcpError` function of errors.ts.  An `McpError` passes
through; an object with string `name` and `message` (which includes both
`RavenDBMcpError` literals and generic `Error` instances, per
`isRavenDBMcpError`) is formatted, with the MCP code derived from the
status code; anything else becomes an internal error. -/
def convertToMcpError (error : Thrown) : Thrown :=
  match error with
  | .mcpError c m => .mcpError c m
  | .ravenError e =>
      let errorCode :=
        match e.statusCode with
        | some sc =>
            if sc = 0 then McpErrorCode.invalidRequest
            else if sc = 401 ∨ sc = 403 then McpErrorCode.invalidRequest
            else if sc = 404 then McpErrorCode.invalidParams
            else if sc ≥ 500 then McpErrorCode.internalError
            else McpErrorCode.invalidRequest
        | none => McpErrorCode.invalidRequest
      .mcpError errorCode (formatRavenDBMcpError e)
  | .jsError m =>
      .mcpError McpErrorCode.invalidRequest
        (formatRavenDBMcpError
          { name := "Error", message := m, code := none,
            statusCode := none, details := none })
  | .nonError v => .mcpError McpErrorCode.internalError ("Error: " ++ v)

/-- The substring classification of `handleRavenDBError` (errors.ts lines
147-201), returning the error code, status code and enhanced message. -/
def classifyErrorMessage (message : String) : String × Nat × String :=
  if containsSubstr message "certificate" ∨ containsSubstr message "cert" then
    if containsSubstr message "not found" ∨ containsSubstr message "could not find" ∨
        containsSubstr message "no such file" then
      ("certificate_not_found", 401,
        "Certificate file not found: " ++ message ++
          ". Please check the RAVENDB_CERT_PATH environment variable.")
    else if containsSubstr message "password" ∨ containsSubstr message "passphrase" then
      ("certificate_password_invalid", 401,
        "Invalid certificate password: " ++ message ++
          ". Please check the RAVENDB_CERT_PASSWORD environment variable.")
    else if containsSubstr message "invalid" ∨ containsSubstr message "malformed" ∨
        containsSubstr message "corrupt" then
      ("certificate_invalid", 401,
        "Invalid certificate: " ++ message ++
          ". Please ensure the certificate is in the correct format.")
    else if containsSubstr message "expired" then
      ("certificate_expired", 401,
        "Certificate expired: " ++ message ++
          ". Please provide a valid, non-expired certificate.")
    else
      ("certificate_error", 401,
        "Certificate error: " ++ message ++
          ". Please check your certificate configuration.")
  else if containsSubstr message "username" ∨ containsSubstr message "password" ∨
      containsSubstr message "credentials" ∨ containsSubstr message "unauthorized" then
    ("auth_failed", 401,
      "Authentication failed: " ++ message ++
        ". Please check your username and password.")
  else if containsSubstr message "api key" ∨ containsSubstr message "apikey" then
    ("api_key_invalid", 401,
      "API key authentication failed: " ++ message ++
        ". Please check your API key.")
  else
    ("unknown", 500, message)

/-- The `handleRavenDBError` function of errors.ts: an `McpError` is
rethrown unchanged; any other thrown value has its message classified,
is wrapped in a `RavenDBMcpError` (keeping the original `code`,
`statusCode` and `details` when truthy) and converted to the `McpError`
that the source then throws.  The returned value is that `McpError`. -/
def handleRavenDBError (error : Thrown) (operation : String) : Thrown :=
  match error with
  | .mcpError c m => .mcpError c m
  | _ =>
      let message := thrownMessage error
      let cls := classifyErrorMessage message
      let code := match thrownCode error with
        | some c => if c = "" then some cls.1 else some c
        | none => some cls.1
      let status := match thrownStatus error with
        | some n => if n = 0 then some cls.2.1 else some n
        | none => some cls.2.1
      convertToMcpError
        (.ravenError
          (createRavenDBMcpError ("Error during " ++ operation ++ ": " ++ cls.2.2)
            code status (thrownDetails error)))

/-- The authentication methods of the current `src/types/config.ts`
(values `none` and `apikey`; the schema narrowed over the project's
history, and `connection.ts` still branches on the api-key method). -/
inductive AuthenticationMethod
  | noneAuth
  | apikey
  deriving DecidableEq

/-- The `RavenDBConfig` record of `src/types/config.ts`.  The credential
fields (`apiKey`, `certPassword`, `password`) appear across the config's
revisions and in the security claims about error messages. -/
structure RavenDBConfig where
  authMethod : AuthenticationMethod
  defaultUrl : Option String
  apiKey : Option String
  certPassword : Option String
  password : Option String
  queryTimeout : Option Nat
  deriving DecidableEq

/-- Auth options passed to the document store (`IAuthOptions`): either
the empty object or the api-key shape built by `createAuthOptions`. -/
inductive IAuthOptions
  | emptyAuth
  | apiKeyAuth (apiKey : String)
  deriving DecidableEq

/-- Message literals of `connection.ts` and `server.ts`. -/
def apiKeyRequiredMsg : String :=
  "API key is required for API key authentication. Set RAVENDB_API_KEY environment variable."

/-- The not-connected message thrown by `checkConnection`,
`getDocumentStore` and `selectDatabase`. -/
def notConnectedMsg : String :=
  "Not connected to RavenDB. Please call initialize-connection first."

/-- The no-database message thrown by `checkConnection`. -/
def noDatabaseMsg : String :=
  "No database selected. Please call select-database first."

/-- The dispatcher's connection-not-initialized message (`server.ts`). -/
def connNotInitMsg : String :=
  "Connection not initialized. Please call initialize-connection first."

/-- The missing-server-URL message thrown by `initialize`. -/
def serverUrlRequiredMsg : String :=
  "Server URL is required. Provide it in the request or set RAVENDB_URL environment variable."

/-- The missing-database message thrown by `selectDatabase`. -/
def dbRequiredMsg : String := "Database name is required"

/-- The `createAuthOptions` method of `connection.ts`: for api-key auth a
missing (or empty, JS-falsy) configured key is an error, otherwise the
api-key options are built; any other method yields the empty options. -/
def createAuthOptions (config : RavenDBConfig) : Except Thrown IAuthOptions :=
  if config.authMethod = AuthenticationMethod.apikey then
    match config.apiKey with
    | some k =>
        if k = "" then .error (.mcpError .invalidParams apiKeyRequiredMsg)
        else .ok (.apiKeyAuth k)
    | none => .error (.mcpError .invalidParams apiKeyRequiredMsg)
  else .ok .emptyAuth

/-- A document store handle (`new DocumentStore(url, database, auth)`).
The `id` is the handle's identity, used by the event trace to tell which
handle is disposed. -/
structure DocumentStore where
  id : Nat
  urls : String
  database : String
  authOptions : IAuthOptions
  deriving DecidableEq

/-- Externally visible resource actions, recorded as an event trace:
store creation, the store's `initialize()` call, store disposal, and
work-session open/dispose.  `sessionOpened` records the database option
passed to `openSession`. -/
inductive Event
  | storeCreated (storeId : Nat)
  | storeInitCalled (storeId : Nat)
  | storeDisposed (storeId : Nat)
  | sessionOpened (database : Option String)
  | sessionDisposed
  deriving DecidableEq

/-- A document value; `collection` is the metadata field projected by
`showCollections`, `body` stands for the rest of the document. -/
structure Doc where
  collection : Option String := none
  body : String := ""
  deriving DecidableEq

/-- An index object as returned by the discovery query (`RavenDBIndex`
in `indexes.ts`): fields that the source guards with `||` or
`Array.isArray` are options here. -/
structure RavenDBIndex where
  name : String
  type : String
  maps : Option (List String)
  fields : Option (List (String × String))
  collections : Option (List String)
  isStale : Bool
  priority : String
  state : String
  deriving DecidableEq

/-- The `FormattedIndex` shape produced by `showIndexes`. -/
structure FormattedIndex where
  name : String
  type : String
  maps : List String
  fields : List String
  collections : List String
  isStale : Bool
  priority : String
  state : String
  deriving DecidableEq

/-- Outcomes of the calls into the external RavenDB client library.
Each field fixes what the corresponding library call returns or throws. -/
structure Oracle where
  storeInit : String → String → Except Thrown Unit
  rawQueryAll : Option String → String → Except Thrown (List Doc)
  indexDocsQuery : String → Except Thrown (List RavenDBIndex)
  load : String → Except Thrown (Option Doc)
  storeWithId : Option Doc → String → Except Thrown Unit
  storeNew : Option Doc → Except Thrown String
  deleteById : String → Except Thrown Unit
  saveChanges : Except Thrown Unit

/-- The `RavenDBConnection` state of `connection.ts`: the private
`documentStore` and `currentDatabase` fields plus the config the
instance was constructed with. -/
structure RavenDBConnection where
  documentStore : Option DocumentStore
  currentDatabase : Option String
  config : RavenDBConfig
  deriving DecidableEq

/-- The `getCurrentDatabase` accessor. -/
def RavenDBConnection.getCurrentDatabase (c : RavenDBConnection) : Option String :=
  c.currentDatabase

/-- The `close` method: disposes the store and clears both fields when a
store is present, otherwise a no-op. -/
def RavenDBConnection.close (c : RavenDBConnection) : RavenDBConnection × List Event :=
  match c.documentStore with
  | some h =>
      ({ c with documentStore := none, currentDatabase := none },
        [Event.storeDisposed h.id])
  | none => (c, [])

/-- The `initialize` method of `connection.ts` (named `initConnection`
here).  Faithful to the source's order: close any existing connection,
resolve the URL with JS-falsy fallback to the config default, build auth
options, assign `this.documentStore`, call the store's `initialize()`
(which may throw, leaving the store field already assigned), and only
then set `currentDatabase`.  Errors pass through `handleRavenDBError`.
`freshId` is the identity given to a newly created store handle. -/
def RavenDBConnection.initConnection (c : RavenDBConnection) (o : Oracle)
    (freshId : Nat) (serverUrl database : String) :
    RavenDBConnection × List Event × Except Thrown (String × String) :=
  let closed := c.close
  let c1 := closed.1
  let ev1 := closed.2
  let url := if serverUrl = "" then c1.config.defaultUrl.getD "" else serverUrl
  if url = "" then
    (c1, ev1, .error (handleRavenDBError
      (.mcpError .invalidParams serverUrlRequiredMsg) "connection initialization"))
  else
    match createAuthOptions c1.config with
    | .error e =>
        (c1, ev1, .error (handleRavenDBError e "connection initialization"))
    | .ok auth =>
        let hnd : DocumentStore :=
          { id := freshId, urls := url, database := database, authOptions := auth }
        let c2 := { c1 with documentStore := some hnd }
        let ev2 := ev1 ++ [Event.storeCreated freshId, Event.storeInitCalled freshId]
        match o.storeInit url database with
        | .error e =>
            (c2, ev2, .error (handleRavenDBError e "connection initialization"))
        | .ok _ =>
            ({ c2 with currentDatabase := some database }, ev2, .ok (url, database))

/-- The `selectDatabase` method: requires a store handle, then a
non-empty database name, then only updates `currentDatabase`.  It makes
no call into the external system, so it takes no oracle and its event
trace is empty.  The thrown `McpError`s pass through `handleRavenDBError`
unchanged. -/
def RavenDBConnection.selectDatabase (c : RavenDBConnection) (database : String) :
    RavenDBConnection × List Event × Except Thrown String :=
  match c.documentStore with
  | none =>
      (c, [], .error (handleRavenDBError
        (.mcpError .invalidRequest notConnectedMsg) "database selection"))
  | some _ =>
      if database = "" then
        (c, [], .error (handleRavenDBError
          (.mcpError .invalidParams dbRequiredMsg) "database selection"))
      else
        ({ c with currentDatabase := some database }, [], .ok database)

/-- The `checkConnection` method: throws the `not_connected` error record
when no store is present, the `no_database` record when the current
database is JS-falsy (absent or the empty string). -/
def RavenDBConnection.checkConnection (c : RavenDBConnection) : Except Thrown Unit :=
  match c.documentStore with
  | none =>
      .error (.ravenError
        (createRavenDBMcpError notConnectedMsg (some "not_connected") (some 400) none))
  | some _ =>
      if c.currentDatabase.getD "" = "" then
        .error (.ravenError
          (createRavenDBMcpError noDatabaseMsg (some "no_database") (some 400) none))
      else .ok ()

/-- The `getDocumentStore` method: the store handle, or the
`not_connected` error record. -/
def RavenDBConnection.getDocumentStore (c : RavenDBConnection) :
    Except Thrown DocumentStore :=
  match c.documentStore with
  | none =>
      .error (.ravenError
        (createRavenDBMcpError notConnectedMsg (some "not_connected") (some 400) none))
  | some s => .ok s

/-- JavaScript `s || dflt` on strings: the empty string is falsy. -/
def jsOr (s dflt : String) : String := if s = "" then dflt else s

/-- JavaScript `database || undefined` on an optional string: maps the
empty string to `undefined` (the `openSession({database})` argument). -/
def jsOrUndef : Option String → Option String
  | some "" => none
  | x => x

/-- JavaScript truthiness of an optional string (`if (id)`). -/
def jsTruthy : Option String → Bool
  | some s => s ≠ ""
  | none => false

/-- The literal discovery query issued by `showCollections`. -/
def collectionsQuery : String :=
  "FROM @all_docs as c WHERE c.@metadata.@collection != null SELECT DISTINCT c.@metadata.@collection as collection"

/-- The soft-miss message of `getDocument` (the id is quoted in the
source with single quotes, written here via `sq`). -/
def docNotFoundMsg (id : String) : String :=
  "Document with ID " ++ sq ++ id ++ sq ++ " not found"

/-- Result shape of `getDocument`: the document, or the soft miss. -/
inductive GetDocResult
  | document (d : Doc)
  | notFound (error : String)
  deriving DecidableEq

/-- The `executeQuery` handler of `queries.ts`: check the connection,
open a session against the current database, run the raw query, and
dispose the session in a `finally` on both exits; failures pass through
`handleRavenDBError`. -/
def executeQuery (c : RavenDBConnection) (o : Oracle) (query : String) :
    List Event × Except Thrown (Nat × List Doc) :=
  match c.checkConnection with
  | .error e => ([], .error (handleRavenDBError e "execute query"))
  | .ok _ =>
    match c.getDocumentStore with
    | .error e => ([], .error (handleRavenDBError e "execute query"))
    | .ok _ =>
      let sdb := jsOrUndef c.getCurrentDatabase
      match o.rawQueryAll sdb query with
      | .error e =>
          ([Event.sessionOpened sdb, Event.sessionDisposed],
            .error (handleRavenDBError e "execute query"))
      | .ok results =>
          ([Event.sessionOpened sdb, Event.sessionDisposed],
            .ok (results.length, results))

/-- The `showCollections` handler of `queries.ts`: runs the fixed
discovery query in a session (disposed in a `finally`), projects each
row's `collection` field and drops JS-falsy values. -/
def showCollections (c : RavenDBConnection) (o : Oracle) :
    List Event × Except Thrown (List String) :=
  match c.checkConnection with
  | .error e => ([], .error (handleRavenDBError e "list collections"))
  | .ok _ =>
    match c.getDocumentStore with
    | .error e => ([], .error (handleRavenDBError e "list collections"))
    | .ok _ =>
      let sdb := jsOrUndef c.getCurrentDatabase
      match o.rawQueryAll sdb collectionsQuery with
      | .error e =>
          ([Event.sessionOpened sdb, Event.sessionDisposed],
            .error (handleRavenDBError e "list collections"))
      | .ok rows =>
          ([Event.sessionOpened sdb, Event.sessionDisposed],
            .ok (rows.filterMap fun d =>
              match d.collection with
              | some s => if s = "" then none else some s
              | none => none))

/-- The `getDocument` handler of `documents.ts`: loads the given id in a
session (disposed in a `finally`); a missing document is the soft miss
`notFound`, not a failure.  The id is not validated. -/
def getDocument (c : RavenDBConnection) (o : Oracle) (id : String) :
    List Event × Except Thrown GetDocResult :=
  match c.checkConnection with
  | .error e => ([], .error (handleRavenDBError e "get document"))
  | .ok _ =>
    match c.getDocumentStore with
    | .error e => ([], .error (handleRavenDBError e "get document"))
    | .ok _ =>
      let sdb := jsOrUndef c.getCurrentDatabase
      match o.load id with
      | .error e =>
          ([Event.sessionOpened sdb, Event.sessionDisposed],
            .error (handleRavenDBError e "get document"))
      | .ok none =>
          ([Event.sessionOpened sdb, Event.sessionDisposed],
            .ok (.notFound (docNotFoundMsg id)))
      | .ok (some d) =>
          ([Event.sessionOpened sdb, Event.sessionDisposed],
            .ok (.document d))

/-- The `storeDocument` handler of `documents.ts`: stores under the
given id when it is JS-truthy, otherwise lets the client generate one;
saves changes before returning; the session is disposed in a `finally`.
The result id falls back to `unknown` when JS-falsy. -/
def storeDocument (c : RavenDBConnection) (o : Oracle) (document : Option Doc)
    (id : Option String) : List Event × Except Thrown String :=
  match c.checkConnection with
  | .error e => ([], .error (handleRavenDBError e "store document"))
  | .ok _ =>
    match c.getDocumentStore with
    | .error e => ([], .error (handleRavenDBError e "store document"))
    | .ok _ =>
      let sdb := jsOrUndef c.getCurrentDatabase
      let ev := [Event.sessionOpened sdb, Event.sessionDisposed]
      if jsTruthy id then
        match o.storeWithId document (id.getD "") with
        | .error e => (ev, .error (handleRavenDBError e "store document"))
        | .ok _ =>
            match o.saveChanges with
            | .error e => (ev, .error (handleRavenDBError e "store document"))
            | .ok _ => (ev, .ok (jsOr (id.getD "") "unknown"))
      else
        match o.storeNew document with
        | .error e => (ev, .error (handleRavenDBError e "store document"))
        | .ok generated =>
            match o.saveChanges with
            | .error e => (ev, .error (handleRavenDBError e "store document"))
            | .ok _ => (ev, .ok (jsOr generated "unknown"))

/-- The `deleteDocument` handler of `documents.ts`: deletes the given id
and saves changes in a session (disposed in a `finally`); returns the
success flag.  The id is not validated. -/
def deleteDocument (c : RavenDBConnection) (o : Oracle) (id : String) :
    List Event × Except Thrown Bool :=
  match c.checkConnection with
  | .error e => ([], .error (handleRavenDBError e "delete document"))
  | .ok _ =>
    match c.getDocumentStore with
    | .error e => ([], .error (handleRavenDBError e "delete document"))
    | .ok _ =>
      let sdb := jsOrUndef c.getCurrentDatabase
      let ev := [Event.sessionOpened sdb, Event.sessionDisposed]
      match o.deleteById id with
      | .error e => (ev, .error (handleRavenDBError e "delete document"))
      | .ok _ =>
          match o.saveChanges with
          | .error e => (ev, .error (handleRavenDBError e "delete document"))
          | .ok _ => (ev, .ok true)

/-- The index formatting of `showIndexes` (`indexes.ts` lines 90-101),
with the source's JS-falsy defaults. -/
def formatIndex (index : RavenDBIndex) : FormattedIndex :=
  { name := jsOr index.name "Unknown"
    type := jsOr index.type "Unknown"
    maps := index.maps.getD []
    fields := (index.fields.getD []).map Prod.fst
    collections := index.collections.getD []
    isStale := index.isStale
    priority := jsOr index.priority "Normal"
    state := jsOr index.state "Normal" }

/-- The `showIndexes` handler of `indexes.ts`.  Faithful to its unusual
shape: the session opened for the discovery query has no `finally` and
is never disposed; both catch blocks rethrow through
`handleRavenDBError` only when the caught value is an `Error` (or
`McpError`) instance, and otherwise return the empty index list — so the
plain `RavenDBMcpError` object thrown by `checkConnection` is swallowed
into `{indexes: []}`. -/
def showIndexes (c : RavenDBConnection) (o : Oracle) :
    List Event × Except Thrown (List FormattedIndex) :=
  match c.checkConnection with
  | .error e =>
      if isErrorInstance e then ([], .error (handleRavenDBError e "list indexes"))
      else ([], .ok [])
  | .ok _ =>
    match c.getDocumentStore with
    | .error e =>
        if isErrorInstance e then ([], .error (handleRavenDBError e "list indexes"))
        else ([], .ok [])
    | .ok _ =>
      let databaseName := c.getCurrentDatabase.getD ""
      let ev := [Event.sessionOpened (some databaseName)]
      match o.indexDocsQuery databaseName with
      | .error e =>
          if isErrorInstance e then (ev, .error (handleRavenDBError e "list indexes"))
          else (ev, .ok [])
      | .ok indexResults => (ev, .ok (indexResults.map formatIndex))

/-- The raw `request.params.arguments` object as the dispatcher sees it:
each tool-relevant key may be present or absent.  Unknown extra keys are
irrelevant (the zod object schemas are non-strict). -/
structure RawArgs where
  server_url : Option String := none
  database : Option String := none
  id : Option String := none
  document : Option Doc := none
  query : Option String := none
  deriving DecidableEq

/-- A zod schema-validation failure for a missing required key: the
`ZodError` thrown by `Schema.parse` is an `Error` instance; its exact
message text (a JSON issue list) is abbreviated here to the issue's
`Required` code and the offending key. -/
def zodRequired (key : String) : Thrown :=
  .jsError ("Required: " ++ key)

/-- Success payloads of the eight tools, as the dispatcher serializes
them (`JSON.stringify(result)`); kept structured here. -/
inductive Payload
  | initR (server database : String)
  | selectR (database : String)
  | collectionsR (collections : List String)
  | indexesR (indexes : List FormattedIndex)
  | docR (r : GetDocResult)
  | storeR (id : String)
  | deleteR (success : Bool)
  | queryR (totalResults : Nat) (results : List Doc)
  deriving DecidableEq

/-- A tool response: the success payload, or the error text with the
`isError` marker set. -/
inductive ToolResponse
  | success (payload : Payload)
  | failure (text : String)
  deriving DecidableEq

/-- Whether a response carries the `isError` marker. -/
def ToolResponse.isFailure : ToolResponse → Bool
  | .failure _ => true
  | .success _ => false

/-- The error text of a failure response, if `sub` occurs in it. -/
def failureTextContains (r : ToolResponse) (sub : String) : Bool :=
  match r with
  | .failure t => containsSubstr t sub
  | .success _ => false

/-- The dispatcher's catch block (`server.ts` lines 366-386): an
`McpError` is prefixed with `MCP Error: `; any object with string `name`
and `message` (`isRavenDBMcpError`, which generic `Error` instances also
satisfy) contributes its bare message; other values are prefixed with
`Error: `. -/
def catchText : Thrown → String
  | .mcpError _ m => "MCP Error: " ++ m
  | .ravenError e => e.message
  | .jsError m => m
  | .nonError v => "Error: " ++ v

/-- Wrap a handler outcome into the response envelope. -/
def respond : Except Thrown Payload → ToolResponse
  | .ok p => .success p
  | .error t => .failure (catchText t)

/-- The dispatcher's per-process state: the `connection` variable of
`createRavenDBServer` plus a counter supplying fresh store-handle ids. -/
structure ServerState where
  connection : Option RavenDBConnection
  nextStoreId : Nat

/-- The state before any tool call: no connection yet. -/
def initialServerState : ServerState :=
  { connection := none, nextStoreId := 0 }

/-- The `CallToolRequestSchema` handler of `server.ts` for one request.
Faithful to the source's order in each case: arguments-present check,
zod schema parse, the `connection` null check, then the handler.  The
`initialize-connection` case assigns a brand-new `RavenDBConnection`
(replacing, not closing, any existing one) before initializing it, and
keeps it even when initialization fails. -/
def callTool (cfg : RavenDBConfig) (o : Oracle) (st : ServerState)
    (name : String) (args : Option RawArgs) :
    ServerState × List Event × ToolResponse :=
  match args with
  | none =>
      (st, [], respond (.error (.mcpError .invalidParams "Arguments are required")))
  | some a =>
    match name with
    | "initialize-connection" =>
        match a.server_url, a.database with
        | none, _ => (st, [], respond (.error (zodRequired "server_url")))
        | _, none => (st, [], respond (.error (zodRequired "database")))
        | some u, some d =>
            let conn0 : RavenDBConnection :=
              { documentStore := none, currentDatabase := none, config := cfg }
            let r := conn0.initConnection o st.nextStoreId u d
            ({ connection := some r.1, nextStoreId := st.nextStoreId + 1 },
              r.2.1,
              respond (r.2.2.map fun sd => Payload.initR sd.1 sd.2))
    | "select-database" =>
        match a.database with
        | none => (st, [], respond (.error (zodRequired "database")))
        | some d =>
            match st.connection with
            | none =>
                (st, [], respond (.error (.mcpError .invalidRequest connNotInitMsg)))
            | some conn =>
                let r := conn.selectDatabase d
                ({ st with connection := some r.1 }, r.2.1,
                  respond (r.2.2.map Payload.selectR))
    | "show-collections" =>
        match st.connection with
        | none =>
            (st, [], respond (.error (.mcpError .invalidRequest connNotInitMsg)))
        | some conn =>
            let r := showCollections conn o
            (st, r.1, respond (r.2.map Payload.collectionsR))
    | "show-indexes" =>
        match st.connection with
        | none =>
            (st, [], respond (.error (.mcpError .invalidRequest connNotInitMsg)))
        | some conn =>
            let r := showIndexes conn o
            (st, r.1, respond (r.2.map Payload.indexesR))
    | "get-document" =>
        match a.id with
        | none => (st, [], respond (.error (zodRequired "id")))
        | some i =>
            match st.connection with
            | none =>
                (st, [], respond (.error (.mcpError .invalidRequest connNotInitMsg)))
            | some conn =>
                let r := getDocument conn o i
                (st, r.1, respond (r.2.map Payload.docR))
    | "store-document" =>
        match st.connection with
        | none =>
            (st, [], respond (.error (.mcpError .invalidRequest connNotInitMsg)))
        | some conn =>
            let r := storeDocument conn o a.document a.id
            (st, r.1, respond (r.2.map Payload.storeR))
    | "delete-document" =>
        match a.id with
        | none => (st, [], respond (.error (zodRequired "id")))
        | some i =>
            match st.connection with
            | none =>
                (st, [], respond (.error (.mcpError .invalidRequest connNotInitMsg)))
            | some conn =>
                let r := deleteDocument conn o i
                (st, r.1, respond (r.2.map Payload.deleteR))
    | "query-documents" =>
        match a.query with
        | none => (st, [], respond (.error (zodRequired "query")))
        | some q =>
            match st.connection with
            | none =>
                (st, [], respond (.error (.mcpError .invalidRequest connNotInitMsg)))
            | some conn =>
                let r := executeQuery conn o q
                (st, r.1, respond (r.2.map fun tr => Payload.queryR tr.1 tr.2))
    | other =>
        (st, [], respond (.error (.mcpError .methodNotFound ("Unknown tool: " ++ other))))

/-- A configuration with no authentication, no default URL and no
credentials. -/
def cfgA : RavenDBConfig :=
  { authMethod := .noneAuth, defaultUrl := none, apiKey := none,
    certPassword := none, password := none, queryTimeout := none }

/-- `cfgA` with a configured default server URL. -/
def cfgDefaultUrl : RavenDBConfig :=
  { cfgA with defaultUrl := some "http://default:8080" }

/-- `cfgA` with a configured certificate password (a credential). -/
def cfgSecret : RavenDBConfig :=
  { cfgA with certPassword := some "s3cret-pw" }

/-- An oracle on which every external call succeeds with a neutral
result (loads find nothing, queries return no rows). -/
def okOracle : Oracle :=
  { storeInit := fun _ _ => .ok ()
    rawQueryAll := fun _ _ => .ok []
    indexDocsQuery := fun _ => .ok []
    load := fun _ => .ok none
    storeWithId := fun _ _ => .ok ()
    storeNew := fun _ => .ok "generated/1"
    deleteById := fun _ => .ok ()
    saveChanges := .ok () }

/-- `okOracle` except that the index-discovery query throws `t`. -/
def indexFailOracle (t : Thrown) : Oracle :=
  { okOracle with indexDocsQuery := fun _ => .error t }

/-- `okOracle` except that raw queries throw `t`. -/
def queryFailOracle (t : Thrown) : Oracle :=
  { okOracle with rawQueryAll := fun _ _ => .error t }

/-- A live store handle, as the first `initialize-connection` call on
`okOracle` creates it. -/
def sampleStore : DocumentStore :=
  { id := 0, urls := "http://a", database := "DB", authOptions := .emptyAuth }

/-- A connected `RavenDBConnection` with database `DB`. -/
def connReady (cfg : RavenDBConfig) : RavenDBConnection :=
  { documentStore := some sampleStore, currentDatabase := some "DB", config := cfg }

/-- A server state holding the connected connection `connReady cfg`. -/
def stReady (cfg : RavenDBConfig) : ServerState :=
  { connection := some (connReady cfg), nextStoreId := 1 }

/-- Arguments carrying a server URL and a database name. -/
def initArgs (u d : String) : RawArgs :=
  { server_url := some u, database := some d }

/-- Arguments with every tool-relevant key present, so that every tool's
schema parse succeeds. -/
def fullArgs (u d i q : String) (b : Doc) : RawArgs :=
  { server_url := some u, database := some d, id := some i,
    document := some b, query := some q }

/-- An unconnected connection instance over `cfgA` (both fields null). -/
def connNone : RavenDBConnection :=
  { documentStore := none, currentDatabase := none, config := cfgA }

/-- C9: for every session with a client handle and every non-empty
database name, `selectDatabase` succeeds, changes only the in-memory
`currentDatabase` field, performs no call to the external system (its
event trace is empty and it consults no oracle, so no existence check
happens), and fails with the not-connected `McpError` — leaving the
state unchanged — when no client handle exists. -/
theorem C9_selectDatabase_frame (c cNo : RavenDBConnection) (db : String)
    (hStore : c.documentStore.isSome = true) (hdb : db ≠ "")
    (hNo : cNo.documentStore = none) :
    ((c.selectDatabase db).2.2 = Except.ok db) ∧
    ((c.selectDatabase db).1 = { c with currentDatabase := some db }) ∧
    ((c.selectDatabase db).2.1 = []) ∧
    ((cNo.selectDatabase db).2.2 =
      Except.error (Thrown.mcpError .invalidRequest notConnectedMsg)) ∧
    ((cNo.selectDatabase db).1 = cNo) := by
  obtain ⟨h, hh⟩ := Option.isSome_iff_exists.mp hStore
  refine ⟨?_, ?_, ?_, ?_, ?_⟩ <;>
    simp [RavenDBConnection.selectDatabase, hh, hNo, hdb, handleRavenDBError]

/-- Witness for C9 at concrete inputs. -/
theorem C9_witness :
    (connReady cfgA).documentStore.isSome = true ∧ ("Other" ≠ "") ∧
    connNone.documentStore = none ∧
    (((connReady cfgA).selectDatabase "Other").2.2 = Except.ok "Other" ∧
     ((connReady cfgA).selectDatabase "Other").1 =
       { connReady cfgA with currentDatabase := some "Other" } ∧
     ((connReady cfgA).selectDatabase "Other").2.1 = [] ∧
     ((connNone.selectDatabase "Other").2.2 =
       Except.error (Thrown.mcpError .invalidRequest notConnectedMsg)) ∧
     ((connNone.selectDatabase "Other").1 = connNone)) :=
  ⟨rfl, by decide, rfl,
    C9_selectDatabase_frame (connReady cfgA) connNone "Other" rfl (by decide) rfl⟩

/-- C10: whenever `selectDatabase` fails (no client handle, or empty
database argument), the connection state is returned exactly as it was:
neither `documentStore` nor `currentDatabase` is modified on any error
path. -/
theorem C10_selectDatabase_error_preserves (c : RavenDBConnection) (db : String)
    (hfail : exceptIsOk (c.selectDatabase db).2.2 = false) :
    (c.selectDatabase db).1 = c := by
  cases hs : c.documentStore with
  | none => simp [RavenDBConnection.selectDatabase, hs]
  | some h =>
      by_cases hdb : db = ""
      · simp [RavenDBConnection.selectDatabase, hs, hdb]
      · exfalso
        simp [RavenDBConnection.selectDatabase, hs, hdb, exceptIsOk] at hfail

/-- Witness for C10 at a concrete failing input (no client handle). -/
theorem C10_witness :
    exceptIsOk ((connNone.selectDatabase "Orders").2.2) = false ∧
    (connNone.selectDatabase "Orders").1 = connNone :=
  ⟨rfl, C10_selectDatabase_error_preserves connNone "Orders" rfl⟩

/-- Number of sessions opened in an event trace. -/
def opensCount (ev : List Event) : Nat :=
  (ev.filter fun e => match e with | Event.sessionOpened _ => true | _ => false).length

/-- Number of sessions disposed in an event trace. -/
def disposeCount (ev : List Event) : Nat :=
  (ev.filter fun e => match e with | Event.sessionDisposed => true | _ => false).length

/-- Every `executeQuery` run disposes exactly the sessions it opens. -/
theorem executeQuery_sessionsBalanced (c : RavenDBConnection) (o : Oracle) (q : String) :
    opensCount (executeQuery c o q).1 = disposeCount (executeQuery c o q).1 := by
  unfold executeQuery
  dsimp only
  repeat' split
  all_goals rfl

/-- Every `showCollections` run disposes exactly the sessions it opens. -/
theorem showCollections_sessionsBalanced (c : RavenDBConnection) (o : Oracle) :
    opensCount (showCollections c o).1 = disposeCount (showCollections c o).1 := by
  unfold showCollections
  dsimp only
  repeat' split
  all_goals rfl

/-- Every `getDocument` run disposes exactly the sessions it opens. -/
theorem getDocument_sessionsBalanced (c : RavenDBConnection) (o : Oracle) (i : String) :
    opensCount (getDocument c o i).1 = disposeCount (getDocument c o i).1 := by
  unfold getDocument
  dsimp only
  repeat' split
  all_goals rfl

/-- Every `storeDocument` run disposes exactly the sessions it opens. -/
theorem storeDocument_sessionsBalanced (c : RavenDBConnection) (o : Oracle)
    (d : Option Doc) (i : Option String) :
    opensCount (storeDocument c o d i).1 = disposeCount (storeDocument c o d i).1 := by
  unfold storeDocument
  dsimp only
  repeat' split
  all_goals rfl

/-- Every `deleteDocument` run disposes exactly the sessions it opens. -/
theorem deleteDocument_sessionsBalanced (c : RavenDBConnection) (o : Oracle) (i : String) :
    opensCount (deleteDocument c o i).1 = disposeCount (deleteDocument c o i).1 := by
  unfold deleteDocument
  dsimp only
  repeat' split
  all_goals rfl

/-- C4: the five handlers with a `finally` (`executeQuery`,
`showCollections`, `getDocument`, `storeDocument`, `deleteDocument`)
dispose every session they open on every exit path, for every state and
every oracle outcome; but `showIndexes` — listed by the claim — opens a
session for the discovery query and never disposes it, shown here on a
connected session both when discovery succeeds and when it fails, so the
claim is wrong about the code: `indexes.ts` lacks the `finally` its
sibling handlers have. -/
theorem C4_session_release (c : RavenDBConnection) (o : Oracle) (q i : String)
    (d : Option Doc) (oi : Option String) :
    (opensCount (executeQuery c o q).1 = disposeCount (executeQuery c o q).1) ∧
    (opensCount (showCollections c o).1 = disposeCount (showCollections c o).1) ∧
    (opensCount (getDocument c o i).1 = disposeCount (getDocument c o i).1) ∧
    (opensCount (storeDocument c o d oi).1 = disposeCount (storeDocument c o d oi).1) ∧
    (opensCount (deleteDocument c o i).1 = disposeCount (deleteDocument c o i).1) ∧
    (opensCount (showIndexes (connReady cfgA) okOracle).1 = 1 ∧
      disposeCount (showIndexes (connReady cfgA) okOracle).1 = 0) ∧
    (opensCount (showIndexes (connReady cfgA) (indexFailOracle (.nonError "x"))).1 = 1 ∧
      disposeCount (showIndexes (connReady cfgA) (indexFailOracle (.nonError "x"))).1 = 0) :=
  ⟨executeQuery_sessionsBalanced c o q,
   showCollections_sessionsBalanced c o,
   getDocument_sessionsBalanced c o i,
   storeDocument_sessionsBalanced c o d oi,
   deleteDocument_sessionsBalanced c o i,
   ⟨rfl, rfl⟩, ⟨rfl, rfl⟩⟩

/-- First `initialize-connection` call of the re-initialization
scenario: connects to `http://one`, database `DB1`. -/
def c1Step1 : ServerState × List Event × ToolResponse :=
  callTool cfgA okOracle initialServerState "initialize-connection"
    (some (initArgs "http://one" "DB1"))

/-- Second `initialize-connection` call of the scenario, on the state
left by the first: connects to `http://two`, database `DB2`. -/
def c1Step2 : ServerState × List Event × ToolResponse :=
  callTool cfgA okOracle c1Step1.1 "initialize-connection"
    (some (initArgs "http://two" "DB2"))

/-- C1 counterexample: both `initialize-connection` calls succeed (the
first creates store handle 0), yet no disposal of handle 0 ever occurs —
the dispatcher replaces the `connection` object with a fresh one before
`initialize` runs, so `close()` finds nothing to dispose and the first
client handle is released zero times, not exactly once. -/
theorem C1_counterexample :
    (c1Step1.2.2 = ToolResponse.success (Payload.initR "http://one" "DB1")) ∧
    (c1Step2.2.2 = ToolResponse.success (Payload.initR "http://two" "DB2")) ∧
    ((c1Step1.2.1 ++ c1Step2.2.1).count (Event.storeDisposed 0) = 0) ∧
    (c1Step1.1.connection = some
      { documentStore := some
          { id := 0, urls := "http://one", database := "DB1",
            authOptions := .emptyAuth },
        currentDatabase := some "DB1", config := cfgA }) :=
  ⟨rfl, rfl, rfl, rfl⟩

/-- C1 amended: a second `initialize-connection` call fully replaces the
Session with a fresh connection object, and no operation issued after it
can observe the first database's context (the resulting state mentions
only the second URL, database and handle); but the previous client
handle is never released — zero `storeDisposed` events for it occur in
either call — rather than exactly once. -/
theorem C1_replaced_not_disposed (u1 d1 u2 d2 : String)
    (h1 : u1 ≠ "") (h2 : u2 ≠ "") :
    (callTool cfgA okOracle
        (callTool cfgA okOracle initialServerState "initialize-connection"
          (some (initArgs u1 d1))).1
        "initialize-connection" (some (initArgs u2 d2))).2.2 =
      ToolResponse.success (Payload.initR u2 d2) ∧
    ((callTool cfgA okOracle initialServerState "initialize-connection"
          (some (initArgs u1 d1))).2.1 ++
      (callTool cfgA okOracle
        (callTool cfgA okOracle initialServerState "initialize-connection"
          (some (initArgs u1 d1))).1
        "initialize-connection" (some (initArgs u2 d2))).2.1).count
        (Event.storeDisposed 0) = 0 ∧
    (callTool cfgA okOracle
        (callTool cfgA okOracle initialServerState "initialize-connection"
          (some (initArgs u1 d1))).1
        "initialize-connection" (some (initArgs u2 d2))).1.connection =
      some
        { documentStore := some
            { id := 1, urls := u2, database := d2, authOptions := .emptyAuth },
          currentDatabase := some d2, config := cfgA } := by
  refine ⟨?_, ?_, ?_⟩ <;>
    simp [callTool, initArgs, initialServerState, RavenDBConnection.initConnection,
      RavenDBConnection.close, createAuthOptions, cfgA, okOracle, respond,
      Except.map, h1, h2, List.count]

/-- Witness for the amended C1 at concrete inputs. -/
theorem C1_witness :
    ("http://one" ≠ "") ∧ ("http://two" ≠ "") ∧
    ((callTool cfgA okOracle
        (callTool cfgA okOracle initialServerState "initialize-connection"
          (some (initArgs "http://one" "DB1"))).1
        "initialize-connection" (some (initArgs "http://two" "DB2"))).2.2 =
      ToolResponse.success (Payload.initR "http://two" "DB2") ∧
    ((callTool cfgA okOracle initialServerState "initialize-connection"
          (some (initArgs "http://one" "DB1"))).2.1 ++
      (callTool cfgA okOracle
        (callTool cfgA okOracle initialServerState "initialize-connection"
          (some (initArgs "http://one" "DB1"))).1
        "initialize-connection" (some (initArgs "http://two" "DB2"))).2.1).count
        (Event.storeDisposed 0) = 0 ∧
    (callTool cfgA okOracle
        (callTool cfgA okOracle initialServerState "initialize-connection"
          (some (initArgs "http://one" "DB1"))).1
        "initialize-connection" (some (initArgs "http://two" "DB2"))).1.connection =
      some
        { documentStore := some
            { id := 1, urls := "http://two", database := "DB2",
              authOptions := .emptyAuth },
          currentDatabase := some "DB2", config := cfgA }) :=
  ⟨by decide, by decide,
    C1_replaced_not_disposed "http://one" "DB1" "http://two" "DB2"
      (by decide) (by decide)⟩

/-- A failed `initialize-connection` attempt: the server URL is the
empty string and no default URL is configured, so `initialize` throws
before a store is created — but the dispatcher has already replaced its
`connection` variable with the new (unconnected) instance. -/
def c3Step1 : ServerState × List Event × ToolResponse :=
  callTool cfgA okOracle initialServerState "initialize-connection"
    (some (initArgs "" "X"))

/-- A `show-indexes` call issued right after the failed attempt. -/
def c3Step2 : ServerState × List Event × ToolResponse :=
  callTool cfgA okOracle c3Step1.1 "show-indexes" (some {})

/-- C3 counterexample: after an `initialize-connection` attempt that
failed, `show-indexes` — a tool other than `initialize-connection`,
invoked before any successful initialization — returns the success
payload `indexesR []` instead of a `not_connected` failure: the
dispatcher's null check passes (the connection object exists), and
`showIndexes` swallows the plain `not_connected` error object thrown by
`checkConnection` because it is not an `Error` instance. -/
theorem C3_counterexample :
    (c3Step1.2.2 = ToolResponse.failure ("MCP Error: " ++ serverUrlRequiredMsg)) ∧
    (c3Step2.2.2 = ToolResponse.success (Payload.indexesR [])) :=
  ⟨rfl, rfl⟩

/-- C3 amended: for every tool name other than `initialize-connection`,
invoking it with schema-valid arguments before `initialize-connection`
was ever attempted yields the dispatcher's connection-not-initialized
failure; after a failed attempt this no longer holds for every tool
(`show-indexes` returns the success payload `indexesR []`). -/
theorem C3_not_connected_before_attempt (cfg : RavenDBConfig) (o : Oracle)
    (nm u d i q : String) (b : Doc)
    (h : nm ∈ ["select-database", "show-collections", "show-indexes",
      "get-document", "store-document", "delete-document", "query-documents"]) :
    (callTool cfg o initialServerState nm (some (fullArgs u d i q b))).2.2 =
      ToolResponse.failure ("MCP Error: " ++ connNotInitMsg) := by
  simp only [List.mem_cons, List.not_mem_nil, or_false] at h
  rcases h with h | h | h | h | h | h | h <;> subst h <;> rfl

/-- Witness for the amended C3 at a concrete tool name and arguments. -/
theorem C3_witness :
    ("select-database" ∈ ["select-database", "show-collections", "show-indexes",
      "get-document", "store-document", "delete-document", "query-documents"]) ∧
    (callTool cfgA okOracle initialServerState "select-database"
        (some (fullArgs "http://a" "DB" "docs/1" "from X" {}))).2.2 =
      ToolResponse.failure ("MCP Error: " ++ connNotInitMsg) :=
  ⟨by decide,
    C3_not_connected_before_attempt cfgA okOracle "select-database"
      "http://a" "DB" "docs/1" "from X" {} (by decide)⟩

/-- An `initialize-connection` call with an empty database name. -/
def c5Step : ServerState × List Event × ToolResponse :=
  callTool cfgA okOracle initialServerState "initialize-connection"
    (some (initArgs "http://a" ""))

/-- The connection state produced by `c5Step`: a live store handle with
`currentDatabase` set to the empty string. -/
def c5Conn : RavenDBConnection :=
  { documentStore := some
      { id := 0, urls := "http://a", database := "", authOptions := .emptyAuth },
    currentDatabase := some "", config := cfgA }

/-- C5 counterexample: `initialize-connection` with `database = ""`
succeeds (neither the zod schema nor `initialize` rejects the empty
string), leaving a state with a client handle present while
`checkConnection` reports `no_database` — so the Connected-NoDB state
the claim calls unreachable is reached. -/
theorem C5_counterexample :
    (c5Step.2.2 = ToolResponse.success (Payload.initR "http://a" "")) ∧
    (c5Step.1.connection = some c5Conn) ∧
    (c5Conn.documentStore.isSome = true) ∧
    (c5Conn.checkConnection =
      Except.error (.ravenError
        (createRavenDBMcpError noDatabaseMsg (some "no_database") (some 400) none))) :=
  ⟨rfl, rfl, rfl, rfl⟩

/-- C5 amended: `initialize` does not require a non-empty database name;
every successful initialization still sets the client handle and
`currentDatabase := database` together (in this sense atomically), but
with `database = ""` the resulting state has a handle and a JS-falsy
current database, so Connected-NoDB is reachable exactly through the
empty database name. -/
theorem C5_initialize_sets_both (u d : String) (hu : u ≠ "") :
    (callTool cfgA okOracle initialServerState "initialize-connection"
        (some (initArgs u d))).2.2 =
      ToolResponse.success (Payload.initR u d) ∧
    (callTool cfgA okOracle initialServerState "initialize-connection"
        (some (initArgs u d))).1.connection =
      some
        { documentStore := some
            { id := 0, urls := u, database := d, authOptions := .emptyAuth },
          currentDatabase := some d, config := cfgA } ∧
    (exceptIsOk (RavenDBConnection.checkConnection
        { documentStore := some
            { id := 0, urls := u, database := d, authOptions := .emptyAuth },
          currentDatabase := some d, config := cfgA }) = !(d = "")) := by
  refine ⟨?_, ?_, ?_⟩
  · simp [callTool, initArgs, initialServerState, RavenDBConnection.initConnection,
      RavenDBConnection.close, createAuthOptions, cfgA, okOracle, respond,
      Except.map, hu]
  · simp [callTool, initArgs, initialServerState, RavenDBConnection.initConnection,
      RavenDBConnection.close, createAuthOptions, cfgA, okOracle, respond,
      Except.map, hu]
  · by_cases hd : d = "" <;>
      simp [RavenDBConnection.checkConnection, exceptIsOk, hd]

/-- Witness for the amended C5 at concrete inputs (empty database). -/
theorem C5_witness :
    ("http://a" ≠ "") ∧
    ((callTool cfgA okOracle initialServerState "initialize-connection"
        (some (initArgs "http://a" ""))).2.2 =
      ToolResponse.success (Payload.initR "http://a" "") ∧
    (callTool cfgA okOracle initialServerState "initialize-connection"
        (some (initArgs "http://a" ""))).1.connection =
      some
        { documentStore := some
            { id := 0, urls := "http://a", database := "", authOptions := .emptyAuth },
          currentDatabase := some "", config := cfgA } ∧
    (exceptIsOk (RavenDBConnection.checkConnection
        { documentStore := some
            { id := 0, urls := "http://a", database := "", authOptions := .emptyAuth },
          currentDatabase := some "", config := cfgA }) = !("" = ""))) :=
  ⟨by decide, C5_initialize_sets_both "http://a" "" (by decide)⟩

/-- C6 counterexample: with a default server URL configured, an
`initialize-connection` request that omits `server_url` still fails —
the zod schema declares `server_url` as a required string, so the parse
throws before the default-URL fallback in `initialize` can run. -/
theorem C6_counterexample :
    cfgDefaultUrl.defaultUrl = some "http://default:8080" ∧
    (callTool cfgDefaultUrl okOracle initialServerState "initialize-connection"
        (some { database := some "Orders" })).2.2 =
      ToolResponse.failure (catchText (zodRequired "server_url")) :=
  ⟨rfl, rfl⟩

/-- C6 amended: the `server_url` key is required by the schema, so
omitting it fails validation for every configuration; the configured
default is reached only by passing the empty string (JS-falsy) as
`server_url`, in which case the call succeeds against the default URL
when one is configured and fails with the configuration error when none
is. -/
theorem C6_server_url_required (cfg : RavenDBConfig) (o : Oracle) (d : String) :
    (callTool cfg o initialServerState "initialize-connection"
        (some { database := some d })).2.2 =
      ToolResponse.failure (catchText (zodRequired "server_url")) ∧
    (callTool cfgDefaultUrl okOracle initialServerState "initialize-connection"
        (some (initArgs "" d))).2.2 =
      ToolResponse.success (Payload.initR "http://default:8080" d) ∧
    (callTool cfgA okOracle initialServerState "initialize-connection"
        (some (initArgs "" d))).2.2 =
      ToolResponse.failure ("MCP Error: " ++ serverUrlRequiredMsg) :=
  ⟨rfl, rfl, rfl⟩

/-- C2 counterexample: on a connected session, when the index-discovery
query throws an `Error` instance (`boom`), `show-indexes` does not
return `indexesR []` — the catch block rethrows through
`handleRavenDBError` for `Error`/`McpError` instances, and the caller
receives a failure response. -/
theorem C2_counterexample :
    (callTool cfgA (indexFailOracle (.jsError "boom")) (stReady cfgA)
        "show-indexes" (some {})).2.2.isFailure = true ∧
    exceptIsOk (showIndexes (connReady cfgA) (indexFailOracle (.jsError "boom"))).2
      = false :=
  ⟨rfl, rfl⟩

/-- C2 amended: on a connected session, a failure of the index-discovery
mechanism is swallowed into the success payload `[]` only when the
thrown value is neither an `Error` nor an `McpError` instance (a plain
object or primitive); discovery failures that are `Error` instances
propagate as categorized failures instead. -/
theorem C2_showIndexes_degrade (db v m : String) (hdb : db ≠ "") :
    ((showIndexes
        { documentStore := some sampleStore, currentDatabase := some db,
          config := cfgA }
        (indexFailOracle (.nonError v))).2 = Except.ok []) ∧
    ((showIndexes
        { documentStore := some sampleStore, currentDatabase := some db,
          config := cfgA }
        (indexFailOracle (.ravenError
          (createRavenDBMcpError m (some "query") (some 400) none)))).2 =
      Except.ok []) ∧
    (exceptIsOk (showIndexes
        { documentStore := some sampleStore, currentDatabase := some db,
          config := cfgA }
        (indexFailOracle (.jsError m))).2 = false) := by
  refine ⟨?_, ?_, ?_⟩ <;>
    simp [showIndexes, RavenDBConnection.checkConnection,
      RavenDBConnection.getDocumentStore, RavenDBConnection.getCurrentDatabase,
      indexFailOracle, okOracle, isErrorInstance, exceptIsOk, hdb]

/-- Witness for the amended C2 at concrete inputs. -/
theorem C2_witness :
    ("DB" ≠ "") ∧
    (((showIndexes
        { documentStore := some sampleStore, currentDatabase := some "DB",
          config := cfgA }
        (indexFailOracle (.nonError "oops"))).2 = Except.ok []) ∧
    ((showIndexes
        { documentStore := some sampleStore, currentDatabase := some "DB",
          config := cfgA }
        (indexFailOracle (.ravenError
          (createRavenDBMcpError "boom" (some "query") (some 400) none)))).2 =
      Except.ok []) ∧
    (exceptIsOk (showIndexes
        { documentStore := some sampleStore, currentDatabase := some "DB",
          config := cfgA }
        (indexFailOracle (.jsError "boom"))).2 = false)) :=
  ⟨by decide, C2_showIndexes_degrade "DB" "oops" "boom" (by decide)⟩

/-- An oracle whose raw query throws an `Error` whose text contains the
configured certificate password `s3cret-pw` verbatim (as the underlying
client library would do when echoing a rejected credential). -/
def leakOracle : Oracle :=
  queryFailOracle (.jsError "certificate password rejected: s3cret-pw")

/-- C7 counterexample: with `certPassword = s3cret-pw` configured, a
`query-documents` failure whose library error text contains that literal
credential produces an error response that still contains `s3cret-pw` —
and the failure is classified into the auth category
`certificate_password_invalid`.  `handleRavenDBError` embeds the raw
library message in its enhanced message; only the `details` fields are
redacted. -/
theorem C7_counterexample :
    cfgSecret.certPassword = some "s3cret-pw" ∧
    failureTextContains
      (callTool cfgSecret leakOracle (stReady cfgSecret) "query-documents"
        (some { query := some "from Orders" })).2.2 "s3cret-pw" = true ∧
    failureTextContains
      (callTool cfgSecret leakOracle (stReady cfgSecret) "query-documents"
        (some { query := some "from Orders" })).2.2
      "Code: certificate_password_invalid" = true := by
  refine ⟨rfl, ?_, ?_⟩ <;> decide

/-- An oracle whose raw query throws a `RavenDBMcpError` object carrying
a secret in every credential-named detail field, plus one innocuous
detail field. -/
def detailsLeakOracle (secret : String) : Oracle :=
  queryFailOracle (.ravenError
    (createRavenDBMcpError "query failed" (some "query") (some 400)
      (some [("password", secret), ("apiKey", secret), ("cert", secret),
             ("certificate", secret), ("hint", "check server logs")])))

/-- The response text produced for `detailsLeakOracle`, independent of
the secret: the four credential-named detail fields are deleted by
`formatRavenDBMcpError`, only the innocuous one surfaces, and the plain
error object stringifies to `[object Object]` in the enhanced message. -/
def c7RedactedText : String :=
  "MCP Error: RavenDB Error: Error during execute query: [object Object]\nCode: query\nStatus: 400\nDetails: \x7b\"hint\":\"check server logs\"\x7d"

/-- C7 amended: the redaction applies to the structured `details` only —
fields named `password`, `apiKey`, `cert`, `certificate` (and
`stackTrace`, `authentication`) are deleted before any message is built,
so for every secret the response is one and the same constant text; but
the error's message text itself is passed through unredacted, so a
credential appearing in the library's message text reaches the caller
(the counterexample). -/
theorem C7_details_redacted (secret : String) :
    (callTool cfgSecret (detailsLeakOracle secret) (stReady cfgSecret)
        "query-documents" (some { query := some "from Orders" })).2.2 =
      ToolResponse.failure c7RedactedText :=
  rfl

/-- C8 counterexample: on a connected session, `getDocument` with the
empty id does not fail — it attempts the lookup (a session is opened and
`load` is called with `""`) and returns the soft-miss success payload;
`deleteDocument` with the empty id likewise attempts the deletion and
returns `success = true` when the client commits it. -/
theorem C8_counterexample :
    ((getDocument (connReady cfgA) okOracle "").2 =
      Except.ok (GetDocResult.notFound (docNotFoundMsg ""))) ∧
    ((getDocument (connReady cfgA) okOracle "").1 =
      [Event.sessionOpened (some "DB"), Event.sessionDisposed]) ∧
    ((deleteDocument (connReady cfgA) okOracle "").2 = Except.ok true) :=
  ⟨rfl, rfl, rfl⟩

/-- C8 amended: `getDocument` and `deleteDocument` perform no id
validation at all — for every id, empty included, they open a session
and attempt the operation against the client; `deleteDocument` returns
`success = true` once the deletion and `saveChanges` commit (the claim's
final clause, which does hold). -/
theorem C8_no_id_validation (id : String) :
    ((getDocument (connReady cfgA) okOracle id).1 =
      [Event.sessionOpened (some "DB"), Event.sessionDisposed]) ∧
    ((getDocument (connReady cfgA) okOracle id).2 =
      Except.ok (GetDocResult.notFound (docNotFoundMsg id))) ∧
    ((deleteDocument (connReady cfgA) okOracle id).1 =
      [Event.sessionOpened (some "DB"), Event.sessionDisposed]) ∧
    ((deleteDocument (connReady cfgA) okOracle id).2 = Except.ok true) :=
  ⟨rfl, rfl, rfl, rfl⟩

end RavenMcp
